import Mathlib

/-!
Verification development for the debshrew indexing engine.

This file shallowly embeds the core of the repository — the CDC data model,
the inversion engine (`WasmRuntime::invert_cdc_message` and
`WasmRuntime::compute_inverse_messages` in `debshrew/src/runtime.rs`), the
transform host surface of `WasmRuntime::process_block`, and the control flow
of `BlockSynchronizer` (`debshrew/src/synchronizer.rs`) — and proves or
refutes the specified properties about them.

Machine integers (`u32`, `u64`) are embedded as `Nat`; the source never
exercises overflow on the paths modelled here (subtraction appears only
behind `height >= 1` guards, which the theorems carry explicitly).
Byte strings (`Vec<u8>`) are `List Nat` with each element a byte value.
-/

/-- Modelled from the spec: `serde_json::Value` (an external crate used for
the optional `before`/`after` documents of a CDC payload, §6.2).  Only the
constructors the repository actually builds (`json!` object literals with
string and integer fields, null) are needed, but the full shape is kept. -/
inductive Json where
  | null : Json
  | bool (b : Bool) : Json
  | num (n : Nat) : Json
  | str (s : String) : Json
  | arr (xs : List Json) : Json
  | obj (fields : List (String × Json)) : Json

/-- CDC operation kind, from `debshrew_support::CdcOperation` (the
`debshrew-support` type definitions are not under `src/`; shape modelled
from the spec §3 and pinned by every use in `src/debshrew/src/runtime.rs`). -/
inductive CdcOperation where
  | create : CdcOperation
  | update : CdcOperation
  | delete : CdcOperation
deriving DecidableEq

/-- Modelled from the spec: `debshrew_support::CdcPayload` (§3); field names
are pinned by the literal constructions in `src/debshrew/src/runtime.rs`. -/
structure CdcPayload where
  operation : CdcOperation
  table : String
  key : String
  before : Option Json
  after : Option Json

/-- Modelled from the spec: `debshrew_support::CdcHeader` (§3); field names
are pinned by the literal constructions in `src/debshrew/src/runtime.rs`.
`timestamp` is milliseconds since the epoch, `block_hash` a hex string. -/
structure CdcHeader where
  source : String
  timestamp : Nat
  block_height : Nat
  block_hash : String
  transaction_id : Option String
deriving DecidableEq

/-- Modelled from the spec: `debshrew_support::CdcMessage` (§3). -/
structure CdcMessage where
  header : CdcHeader
  payload : CdcPayload

/-- Modelled from the spec: `debshrew_support::TransformState` (§3), an
opaque mapping bytes → bytes supporting full-value snapshot and restore.
The host in `src/debshrew/src/runtime.rs` only ever clones and replaces it
whole, so an association list is a faithful embedding. -/
abbrev TransformState := List (List Nat × List Nat)

/-- Modelled from the spec: `debshrew_support::BlockMetadata` (§3); field
names pinned by the construction in `src/debshrew/src/synchronizer.rs`
(`BlockMetadata { height, hash: hex::encode(&hash), timestamp }`). -/
structure BlockMetadata where
  height : Nat
  hash : String
  timestamp : Nat
deriving DecidableEq

/-- Modelled from the spec: `debshrew_runtime::transform::TransformResult`
(the `transform.rs` module is declared but not under `src/`); its
constructor `TransformResult::new(cdc_messages, state)` is pinned by
`src/debshrew/src/runtime.rs` and the fields by
`transform_result.cdc_messages` in `src/debshrew/src/synchronizer.rs`. -/
structure TransformResult where
  cdc_messages : List CdcMessage
  state : TransformState

/-- Modelled from the spec: the engine error type (`debshrew::error::Error`,
not under `src/`).  `reorgHandling` and `metashrewClient` are the variants
constructed in `src/debshrew/src/synchronizer.rs` and
`src/debshrew/src/client.rs`; `anyhowMsg` stands for the `anyhow!`
conversions in `src/debshrew/src/runtime.rs`; `cacheContiguity` for the
§4.4/§7 cache-contiguity guard of the cache module (not under `src/`);
`reorgTooDeep` is the distinct fatal kind the spec table in §7 names
(`ReorgTooDeep`), included so that claims about it are statable. -/
inductive EngineError where
  | reorgHandling (msg : String) : EngineError
  | metashrewClient (msg : String) : EngineError
  | anyhowMsg (msg : String) : EngineError
  | cacheContiguity (msg : String) : EngineError
  | reorgTooDeep : EngineError
deriving DecidableEq

/-- One hex digit, lower case, as produced by the `hex` crate. -/
def hexDigit (n : Nat) : Char :=
  if n < 10 then Char.ofNat (48 + n) else Char.ofNat (87 + n)

/-- `hex::encode` on a byte vector: two lower-case hex digits per byte. -/
def hexEncode (bytes : List Nat) : String :=
  String.mk (bytes.foldr (fun b acc => hexDigit (b / 16 % 16) :: hexDigit (b % 16) :: acc) [])

namespace WasmRuntime

/-- The mutable fields of `WasmRuntime` (`src/debshrew/src/runtime.rs`) that
the modelled operations read or write: `current_height`, `current_hash`,
`state`, and the per-height CDC message cache `cdc_cache` (a `HashMap`,
embedded as a function to `Option`). -/
structure RuntimeState where
  current_height : Nat
  current_hash : List Nat
  state : TransformState
  cdc_cache : Nat → Option (List CdcMessage)

/-- `HashMap::insert` on the embedded `cdc_cache`. -/
def cacheInsert (f : Nat → Option (List CdcMessage)) (h : Nat) (v : List CdcMessage) :
    Nat → Option (List CdcMessage) :=
  fun h2 => if h2 = h then some v else f h2

/-- `WasmRuntime::invert_cdc_message` (`src/debshrew/src/runtime.rs:793`).
The source reads `self.current_hash` for the inverse header's block hash and
`SystemTime::now()` for its timestamp; both enter here as the explicit
arguments `current_hash` and `now`.  The source always returns `Ok`, so the
embedding is a pure function. -/
def invert_cdc_message (current_hash : List Nat) (now : Nat)
    (message : CdcMessage) (new_height : Nat) : CdcMessage :=
  let inv : CdcOperation × Option Json × Option Json :=
    match message.payload.operation with
    | .create => (.delete, message.payload.after, none)
    | .update => (.update, message.payload.after, message.payload.before)
    | .delete => (.create, none, message.payload.before)
  { header :=
      { source := message.header.source
        timestamp := now
        block_height := new_height
        block_hash := hexEncode current_hash
        transaction_id := none }
    payload :=
      { operation := inv.1
        table := message.payload.table
        key := message.payload.key
        before := inv.2.1
        after := inv.2.2 } }

/-- The loop body of `WasmRuntime::compute_inverse_messages`: iterate the
cached batch in reverse order, pushing the inverse of each message. -/
def invertLoop (current_hash : List Nat) (now : Nat) (new_height : Nat)
    (messages : List CdcMessage) : List CdcMessage :=
  messages.reverse.foldl
    (fun inverse m => inverse ++ [invert_cdc_message current_hash now m new_height]) []

/-- `WasmRuntime::compute_inverse_messages` (`src/debshrew/src/runtime.rs:763`):
look up the cached batch for `height`, invert it message by message in
reverse order at target height `height - 1`, or fail when nothing is cached.
(`height` is `u32` in the source; the call sites only reach this with
`height >= 1`, where `Nat` and `u32` subtraction agree.) -/
def compute_inverse_messages (now : Nat) (rt : RuntimeState) (height : Nat) :
    Except EngineError (List CdcMessage) :=
  match rt.cdc_cache height with
  | some messages =>
      .ok (invertLoop rt.current_hash now (height - 1) messages)
  | none =>
      .error (.anyhowMsg ("No CDC messages found for block " ++ toString height))

end WasmRuntime

section InversionClaims

open WasmRuntime

/-- C1: the inversion function follows the spec table on payloads and
carries the target height, original source, table and key, and no
transaction id in its output. -/
theorem invert_cdc_message_spec (current_hash : List Nat) (now : Nat)
    (m : CdcMessage) (t : Nat) :
    ((invert_cdc_message current_hash now m t).header.block_height = t
      ∧ (invert_cdc_message current_hash now m t).header.source = m.header.source
      ∧ (invert_cdc_message current_hash now m t).header.transaction_id = none
      ∧ (invert_cdc_message current_hash now m t).payload.table = m.payload.table
      ∧ (invert_cdc_message current_hash now m t).payload.key = m.payload.key)
    ∧ (∀ x, m.payload.operation = .create → m.payload.before = none →
        m.payload.after = some x →
        (invert_cdc_message current_hash now m t).payload.operation = .delete
          ∧ (invert_cdc_message current_hash now m t).payload.before = some x
          ∧ (invert_cdc_message current_hash now m t).payload.after = none)
    ∧ (∀ x, m.payload.operation = .delete → m.payload.before = some x →
        m.payload.after = none →
        (invert_cdc_message current_hash now m t).payload.operation = .create
          ∧ (invert_cdc_message current_hash now m t).payload.before = none
          ∧ (invert_cdc_message current_hash now m t).payload.after = some x)
    ∧ (∀ x y, m.payload.operation = .update → m.payload.before = some x →
        m.payload.after = some y →
        (invert_cdc_message current_hash now m t).payload.operation = .update
          ∧ (invert_cdc_message current_hash now m t).payload.before = some y
          ∧ (invert_cdc_message current_hash now m t).payload.after = some x) := by
  refine ⟨?_, ?_, ?_, ?_⟩
  · cases hop : m.payload.operation <;>
      simp [invert_cdc_message]
  · intro x hop hb ha
    simp [invert_cdc_message, hop, ha]
  · intro x hop hb ha
    simp [invert_cdc_message, hop, hb]
  · intro x y hop hb ha
    simp [invert_cdc_message, hop, hb, ha]

/-- Concrete `Create` message used as sample input for the C1 witness. -/
def sampleCreate : CdcMessage :=
  { header :=
      { source := "test"
        timestamp := 7
        block_height := 123
        block_hash := "ab"
        transaction_id := some "tx1" }
    payload :=
      { operation := .create
        table := "blocks"
        key := "42"
        before := none
        after := some (Json.obj [("height", Json.num 42)]) } }

/-- Witness for C1 at a concrete `Create` message and target height 122. -/
theorem invert_cdc_message_spec_witness :
    (invert_cdc_message [171] 9 sampleCreate 122).header.block_height = 122
      ∧ (invert_cdc_message [171] 9 sampleCreate 122).payload.operation = .delete
      ∧ (invert_cdc_message [171] 9 sampleCreate 122).payload.before
          = some (Json.obj [("height", Json.num 42)])
      ∧ (invert_cdc_message [171] 9 sampleCreate 122).payload.after = none := by
  have h := invert_cdc_message_spec [171] 9 sampleCreate 122
  exact ⟨h.1.1,
    (h.2.1 (Json.obj [("height", Json.num 42)]) rfl rfl rfl).1,
    (h.2.1 (Json.obj [("height", Json.num 42)]) rfl rfl rfl).2.1,
    (h.2.1 (Json.obj [("height", Json.num 42)]) rfl rfl rfl).2.2⟩

end InversionClaims

/-- The §3 data-model shape invariants on a CDC payload: `Create` has
`before = none, after = some`; `Delete` has `before = some, after = none`;
`Update` has both present. -/
def WellFormedPayload (p : CdcPayload) : Prop :=
  (p.operation = .create → p.before = none ∧ p.after.isSome)
    ∧ (p.operation = .delete → p.before.isSome ∧ p.after = none)
    ∧ (p.operation = .update → p.before.isSome ∧ p.after.isSome)

section RoundTripClaims

open WasmRuntime

/-- Concrete well-formed `Create` message whose header carries a transaction
id; used to refute C2 as stated. -/
def cexRoundTrip : CdcMessage :=
  { header :=
      { source := "s"
        timestamp := 5
        block_height := 10
        block_hash := "0a"
        transaction_id := some "tx" }
    payload :=
      { operation := .create
        table := "t"
        key := "k"
        before := none
        after := some (Json.num 2) } }

/-- Concrete `Create` message violating the §3 shape invariant (`before`
present); used to show the claim's payload round trip also needs the shape
invariants. -/
def cexMalformed : CdcMessage :=
  { header :=
      { source := "s"
        timestamp := 5
        block_height := 10
        block_hash := "0a"
        transaction_id := none }
    payload :=
      { operation := .create
        table := "t"
        key := "k"
        before := some (Json.num 1)
        after := some (Json.num 2) } }

/-- C2 counterexample: double inversion does not restore the header
transaction id (the inverse always carries `transaction_id = none`, so a
message with `transaction_id = some "tx"` differs from its double inverse in
a field the claim does not allow to differ), and on a `Create` payload
violating the §3 shape invariants it does not restore `before` either. -/
theorem invert_involution_cex :
    ((invert_cdc_message [1] 0
        (invert_cdc_message [1] 0 cexRoundTrip 9) 10).header.transaction_id
      ≠ cexRoundTrip.header.transaction_id)
    ∧ ((invert_cdc_message [1] 0
        (invert_cdc_message [1] 0 cexMalformed 9) 10).payload.before
      ≠ cexMalformed.payload.before) := by
  constructor
  · simp [invert_cdc_message, cexRoundTrip]
  · simp [invert_cdc_message, cexMalformed]

/-- C2 amended: for a payload satisfying the §3 shape invariants, inverting
the inverse restores every payload field and the header source; the double
inverse carries `transaction_id = none` (so the two messages differ at most
in timestamp, block height, block hash and transaction id). -/
theorem invert_involution (hash1 hash2 : List Nat) (now1 now2 : Nat)
    (m : CdcMessage) (t1 t2 : Nat) (hwf : WellFormedPayload m.payload) :
    ((invert_cdc_message hash2 now2 (invert_cdc_message hash1 now1 m t1) t2).payload.operation
        = m.payload.operation)
    ∧ ((invert_cdc_message hash2 now2 (invert_cdc_message hash1 now1 m t1) t2).payload.table
        = m.payload.table)
    ∧ ((invert_cdc_message hash2 now2 (invert_cdc_message hash1 now1 m t1) t2).payload.key
        = m.payload.key)
    ∧ ((invert_cdc_message hash2 now2 (invert_cdc_message hash1 now1 m t1) t2).payload.before
        = m.payload.before)
    ∧ ((invert_cdc_message hash2 now2 (invert_cdc_message hash1 now1 m t1) t2).payload.after
        = m.payload.after)
    ∧ ((invert_cdc_message hash2 now2 (invert_cdc_message hash1 now1 m t1) t2).header.source
        = m.header.source)
    ∧ ((invert_cdc_message hash2 now2 (invert_cdc_message hash1 now1 m t1) t2).header.transaction_id
        = none) := by
  obtain ⟨hc, hd, hu⟩ := hwf
  cases hop : m.payload.operation
  · obtain ⟨hb, _⟩ := hc hop
    simp [invert_cdc_message, hop, hb]
  · simp [invert_cdc_message, hop]
  · obtain ⟨_, ha⟩ := hd hop
    simp [invert_cdc_message, hop, ha]

/-- Witness for the amended C2 at a concrete well-formed `Create` message. -/
theorem invert_involution_witness :
    ((invert_cdc_message [2] 1
        (invert_cdc_message [1] 0 sampleCreate 9) 10).payload.before
      = sampleCreate.payload.before)
    ∧ ((invert_cdc_message [2] 1
        (invert_cdc_message [1] 0 sampleCreate 9) 10).payload.after
      = sampleCreate.payload.after)
    ∧ ((invert_cdc_message [2] 1
        (invert_cdc_message [1] 0 sampleCreate 9) 10).payload.operation
      = sampleCreate.payload.operation) := by
  have h := invert_involution [1] [2] 0 1 sampleCreate 9 10
    (by refine ⟨fun _ => ⟨rfl, rfl⟩, fun hop => ?_, fun hop => ?_⟩ <;> simp [sampleCreate] at hop)
  exact ⟨h.2.2.2.1, h.2.2.2.2.1, h.1⟩

end RoundTripClaims

section BatchInversionClaims

open WasmRuntime

/-- Appending-fold form of the inversion loop equals a map over the list. -/
theorem invertLoop_eq_map (current_hash : List Nat) (now new_height : Nat)
    (messages : List CdcMessage) :
    invertLoop current_hash now new_height messages
      = messages.reverse.map
          (fun m => invert_cdc_message current_hash now m new_height) := by
  unfold invertLoop
  generalize messages.reverse = l
  induction l using List.reverseRecOn with
  | nil => rfl
  | append_singleton xs x ih => simp [ih]

/-- C3: for a height `h ≥ 1` whose batch is cached, the inverse batch is
exactly the original batch reversed with each message inverted at target
height `h - 1` (hence the same length, and every inverse message carries
block height `h - 1`); when no batch is cached for `h` the computation
fails with an error. -/
theorem compute_inverse_messages_spec (now : Nat) (rt : RuntimeState)
    (h : Nat) (hge : 1 ≤ h) :
    (∀ msgs, rt.cdc_cache h = some msgs →
      compute_inverse_messages now rt h
          = .ok (msgs.reverse.map
              (fun m => invert_cdc_message rt.current_hash now m (h - 1)))
        ∧ (msgs.reverse.map
              (fun m => invert_cdc_message rt.current_hash now m (h - 1))).length
            = msgs.length
        ∧ ∀ m2 ∈ msgs.reverse.map
              (fun m => invert_cdc_message rt.current_hash now m (h - 1)),
            m2.header.block_height = h - 1)
    ∧ (rt.cdc_cache h = none →
        ∃ e, compute_inverse_messages now rt h = .error e) := by
  constructor
  · intro msgs hcache
    refine ⟨?_, by simp, ?_⟩
    · simp [compute_inverse_messages, hcache, invertLoop_eq_map]
    · intro m2 hm2
      simp only [List.mem_map] at hm2
      obtain ⟨m, _, rfl⟩ := hm2
      rfl
  · intro hcache
    exact ⟨.anyhowMsg ("No CDC messages found for block " ++ toString h),
      by simp [compute_inverse_messages, hcache]⟩

/-- Concrete runtime state for the C3 witness: a two-message batch cached at
height 3, nothing cached elsewhere. -/
def rtBatch : RuntimeState :=
  { current_height := 3
    current_hash := [4]
    state := []
    cdc_cache := fun h => if h = 3 then some [sampleCreate, cexRoundTrip] else none }

/-- Witness for C3 at height 3 (cached: inverted in reverse order at target
height 2) and height 7 (not cached: error). -/
theorem compute_inverse_messages_spec_witness :
    compute_inverse_messages 9 rtBatch 3
        = .ok ([sampleCreate, cexRoundTrip].reverse.map
            (fun m => invert_cdc_message [4] 9 m 2))
      ∧ ∃ e, compute_inverse_messages 9 rtBatch 7 = .error e := by
  constructor
  · exact ((compute_inverse_messages_spec 9 rtBatch 3 (by decide)).1
      [sampleCreate, cexRoundTrip] rfl).1
  · exact (compute_inverse_messages_spec 9 rtBatch 7 (by decide)).2 rfl

end BatchInversionClaims

namespace BlockCache

/-- Modelled from the spec: a cache entry of the rollback-window cache
(`debshrew::block::BlockCache`, whose `block.rs` is not under `src/`),
per §3 `CacheEntry`: block metadata, the emitted CDC batch, and the
transform state snapshot. -/
structure CacheEntry where
  metadata : BlockMetadata
  cdc_batch : List CdcMessage
  state_snapshot : TransformState

/-- Modelled from the spec: the rollback-window cache itself, §4.4 — an
ordered sequence of entries by strictly increasing height with a configured
maximum length (the rollback window W). -/
structure Cache where
  entries : List CacheEntry
  capacity : Nat

/-- Modelled from the spec: `BlockCache::get_block_at_height` — borrow the
entry at a height within the window (`get(height)` in §4.4). -/
def get_block_at_height (c : Cache) (height : Nat) : Option CacheEntry :=
  c.entries.find? (fun e => e.metadata.height = height)

/-- Modelled from the spec: `BlockCache::find_common_ancestor` (§4.4) — the
highest height `h` such that the cached entry at `h` carries the same hash
as the candidate list at `h`; `none` when there is no overlap. -/
def find_common_ancestor (c : Cache) (candidates : List (Nat × String)) :
    Option Nat :=
  (c.entries.filter
      (fun e => candidates.any
        (fun p => p.1 = e.metadata.height ∧ p.2 = e.metadata.hash))).foldl
    (fun best e =>
      match best with
      | none => some e.metadata.height
      | some b => some (max b e.metadata.height)) none

/-- Modelled from the spec: `BlockCache::get_state_snapshot` (§4.4
`state_snapshot(height)`) — a clone of the stored transform state for that
height. -/
def get_state_snapshot (c : Cache) (height : Nat) : Option TransformState :=
  (get_block_at_height c height).map (fun e => e.state_snapshot)

/-- Modelled from the spec: `BlockCache::add_block` (§4.4 `append`) — the
new entry's height must be `last_height + 1` (or it is the first entry),
otherwise the §7 contiguity guard fires; after appending, entries older than
`tip − W + 1` are evicted. -/
def add_block (c : Cache) (metadata : BlockMetadata) (result : TransformResult) :
    Except EngineError Cache :=
  let entry : CacheEntry :=
    { metadata := metadata
      cdc_batch := result.cdc_messages
      state_snapshot := result.state }
  match c.entries.getLast? with
  | none => .ok { c with entries := [entry] }
  | some last =>
      if metadata.height = last.metadata.height + 1 then
        let appended := c.entries ++ [entry]
        .ok { c with entries := appended.drop (appended.length - c.capacity) }
      else
        .error (.cacheContiguity
          ("Non-contiguous block height " ++ toString metadata.height))

/-- Modelled from the spec: `BlockCache::rollback(target_height)` (§4.4) —
drop all entries with height greater than the target. -/
def rollback (c : Cache) (target_height : Nat) : Cache :=
  { c with entries := c.entries.filter (fun e => e.metadata.height ≤ target_height) }

end BlockCache

/-- The upstream client's answer to `get_block_hash(height)`.  The source
(`BlockSynchronizer::process_block`, `src/debshrew/src/synchronizer.rs:285`)
distinguishes errors whose message contains "Block hash not found" or
"code: -32000" (the shape `JsonRpcClient::get_block_hash` produces on a
missing block, `src/debshrew/src/client.rs:701`) from all other errors;
`errNotFound` embeds the former, `errOther` the latter. -/
inductive HashResp where
  | ok (hash : List Nat) : HashResp
  | errNotFound : HashResp
  | errOther (msg : String) : HashResp

/-- The external world as the synchronizer observes it during one polling
iteration: the upstream tip height (`get_height`), the authoritative block
count (`get_actual_block_count`), the hash oracle, the sandbox entry-point
return value (the i32 the WASM `process_block` export returns for a given
height and hash), the batch the sandbox actually serialised behind that
pointer (the host ignores it — that is claim C9), and the wall clock
(milliseconds and seconds). -/
structure Env where
  metashrew_height : Nat
  actual_block_count : Nat
  block_hash : Nat → HashResp
  wasm_process_ret : Nat → List Nat → Int
  wasm_serialized_batch : Nat → List Nat → List CdcMessage
  now_millis : Nat
  now_secs : Nat

namespace WasmRuntime

/-- The hard-coded CDC message `WasmRuntime::process_block` constructs
instead of deserialising the sandbox's batch
(`src/debshrew/src/runtime.rs:472`). -/
def syntheticMessage (env : Env) (height : Nat) (hash : List Nat) : CdcMessage :=
  { header :=
      { source := "block_transform"
        timestamp := env.now_millis
        block_height := height
        block_hash := hexEncode hash
        transaction_id := none }
    payload :=
      { operation := .create
        table := "blocks"
        key := toString height
        before := none
        after := some (Json.obj
          [("height", Json.num height),
           ("hash", Json.str (hexEncode hash)),
           ("timestamp", Json.num env.now_secs)]) } }

/-- `WasmRuntime::process_block` (`src/debshrew/src/runtime.rs:235`): set the
current height and hash, invoke the sandbox `process_block` entry point; a
negative return fails the block; otherwise the host builds the synthetic
one-message batch (ignoring the pointer the sandbox returned), caches it for
the height, and returns it with a clone of the held state. -/
def process_block (env : Env) (rt : RuntimeState) (height : Nat)
    (hash : List Nat) : RuntimeState × Except EngineError TransformResult :=
  let rt1 := { rt with current_height := height, current_hash := hash }
  let cdc_ptr := env.wasm_process_ret height hash
  if cdc_ptr < 0 then
    (rt1, .error (.anyhowMsg ("Process block failed with code " ++ toString cdc_ptr)))
  else
    let cdc_messages := [syntheticMessage env height rt1.current_hash]
    let rt2 := { rt1 with cdc_cache := cacheInsert rt1.cdc_cache height cdc_messages }
    (rt2, .ok { cdc_messages := cdc_messages, state := rt2.state })

end WasmRuntime

namespace BlockSynchronizer

open WasmRuntime

/-- The synchronizer's observable state: its `current_height`, the rollback
cache, the runtime it drives, and the complete sequence of batches handed to
the sink's `send` so far (the sink module is not under `src/`; modelled from
the spec §4.2, `send` appends the batch to the ordered stream). -/
structure SyncState where
  current_height : Nat
  cache : BlockCache.Cache
  runtime : RuntimeState
  sends : List (List CdcMessage)

/-- `BlockSynchronizer::process_block` (`src/debshrew/src/synchronizer.rs:285`):
fetch the hash (a not-found answer returns `Ok` without processing; other
client errors propagate), build the metadata, run the transform, append to
the cache, and send the batch to the sink. -/
def sync_process_block (env : Env) (s : SyncState) (height : Nat) :
    SyncState × Option EngineError :=
  match env.block_hash height with
  | .errNotFound => (s, none)
  | .errOther msg => (s, some (.metashrewClient msg))
  | .ok hash =>
      let metadata : BlockMetadata :=
        { height := height, hash := hexEncode hash, timestamp := env.now_millis }
      match process_block env s.runtime height hash with
      | (rt1, .error e) => ({ s with runtime := rt1 }, some e)
      | (rt1, .ok transform_result) =>
          match BlockCache.add_block s.cache metadata transform_result with
          | .error e => ({ s with runtime := rt1 }, some e)
          | .ok cache1 =>
              ({ s with
                  runtime := rt1
                  cache := cache1
                  sends := s.sends ++ [transform_result.cdc_messages] }, none)

/-- The hash-collection prologue of `BlockSynchronizer::handle_reorg`
(`src/debshrew/src/synchronizer.rs:344`): fetch and hex-encode the new
chain's hashes for heights `0 ..= new_height`; any client error propagates
(a not-found answer surfaces the client's message, per
`src/debshrew/src/client.rs:701`). -/
def collect_new_hashes (env : Env) (new_height : Nat) :
    Except EngineError (List (Nat × String)) :=
  (List.range (new_height + 1)).foldlM
    (fun acc h =>
      match env.block_hash h with
      | .ok hash => .ok (acc ++ [(h, hexEncode hash)])
      | .errNotFound =>
          .error (.metashrewClient ("Block hash not found for height " ++ toString h))
      | .errOther msg => .error (.metashrewClient msg))
    []

/-- The inverse-generation loop of `handle_reorg`
(`src/debshrew/src/synchronizer.rs:371`): for `height` from
`current_height` down to `common_ancestor + 1`, compute the block's inverse
batch and extend the accumulated list; errors propagate. -/
def invert_range (env : Env) (rt : RuntimeState) :
    Nat → Nat → Except EngineError (List CdcMessage)
  | _, 0 => .ok []
  | ca, n + 1 =>
      match compute_inverse_messages env.now_millis rt (ca + n + 1) with
      | .error e => .error e
      | .ok block_inverse =>
          match invert_range env rt ca n with
          | .error e => .error e
          | .ok rest => .ok (block_inverse ++ rest)

/-- The replay loop at the end of `handle_reorg`
(`src/debshrew/src/synchronizer.rs:397`): process the listed heights in
order, stopping at the first error. -/
def process_heights (env : Env) : SyncState → List Nat → SyncState × Option EngineError
  | s, [] => (s, none)
  | s, h :: rest =>
      match sync_process_block env s h with
      | (s1, some e) => (s1, some e)
      | (s1, none) => process_heights env s1 rest

/-- `BlockSynchronizer::handle_reorg` (`src/debshrew/src/synchronizer.rs:342`):
collect the new chain's hashes up to `new_height`, find the common ancestor
in the cache (no ancestor is a reorg-handling error), fetch its state
snapshot, build the inverse batches for `current_height` down to
`ancestor + 1`, reset the runtime to the ancestor height and snapshot, send
the combined inverse sequence as a single send (when non-empty), roll the
cache back to the ancestor, and replay the new chain heights
`ancestor + 1 ..= new_height`.  Note: `current_height` is a field of the
synchronizer that this method (taking `&self`) never writes. -/
def handle_reorg (env : Env) (s : SyncState) (new_height : Nat) :
    SyncState × Option EngineError :=
  match collect_new_hashes env new_height with
  | .error e => (s, some e)
  | .ok new_hashes =>
      match BlockCache.find_common_ancestor s.cache new_hashes with
      | none => (s, some (.reorgHandling "No common ancestor found"))
      | some common_ancestor =>
          match BlockCache.get_state_snapshot s.cache common_ancestor with
          | none => (s, some (.reorgHandling
              ("State snapshot not found for height " ++ toString common_ancestor)))
          | some state_snapshot =>
              match invert_range env s.runtime common_ancestor
                  (s.current_height - common_ancestor) with
              | .error e => (s, some e)
              | .ok inverse_messages =>
                  let rt1 := { s.runtime with
                    current_height := common_ancestor
                    state := state_snapshot }
                  let sends1 :=
                    if inverse_messages.isEmpty then s.sends
                    else s.sends ++ [inverse_messages]
                  let cache1 := BlockCache.rollback s.cache common_ancestor
                  process_heights env
                    { s with runtime := rt1, sends := sends1, cache := cache1 }
                    (List.range' (common_ancestor + 1) (new_height - common_ancestor))

/-- The forward-advance loop of `BlockSynchronizer::run`
(`src/debshrew/src/synchronizer.rs:199`): process each height in order,
setting `current_height` after each success; an error stops the loop and
propagates with `current_height` still at the last processed height. -/
def advance_loop (env : Env) : SyncState → List Nat → SyncState × Option EngineError
  | s, [] => (s, none)
  | s, h :: rest =>
      match sync_process_block env s h with
      | (s1, some e) => (s1, some e)
      | (s1, none) => advance_loop env { s1 with current_height := h } rest

/-- The descending probe of `run` used when the hash fetch at
`current_height` fails (`src/debshrew/src/synchronizer.rs:240`): walk
`test_height` downward; the first height whose hash exists triggers
`handle_reorg` there; if the walk reaches height 0 it reorgs to genesis;
starting at 0 does nothing. -/
def deep_probe (env : Env) (s : SyncState) : Nat → SyncState × Option EngineError
  | 0 => (s, none)
  | t + 1 =>
      match env.block_hash (t + 1) with
      | .ok _ => handle_reorg env s (t + 1)
      | _ =>
          if t = 0 then handle_reorg env s 0
          else deep_probe env s t

/-- The reorg-probe branch of `run` (`src/debshrew/src/synchronizer.rs:204`):
compare the cached hash at `current_height` with the upstream's; a mismatch
triggers `handle_reorg(current_height - 1)`; a failed fetch triggers the
descending probe; no cached entry means no probe. -/
def reorg_probe (env : Env) (s : SyncState) : SyncState × Option EngineError :=
  match BlockCache.get_block_at_height s.cache s.current_height with
  | none => (s, none)
  | some cached_block =>
      match env.block_hash s.current_height with
      | .ok current_hash =>
          if hexEncode current_hash ≠ cached_block.metadata.hash then
            handle_reorg env s (s.current_height - 1)
          else (s, none)
      | _ => deep_probe env s (s.current_height - 1)

/-- The discrepancy branch of `run` (`src/debshrew/src/synchronizer.rs:165`):
when the reported tip exceeds the actual block count and the count has not
passed `current_height`, attempt the single next block and set
`current_height` on success. -/
def discrepancy_step (env : Env) (s : SyncState) : SyncState × Option EngineError :=
  match sync_process_block env s (s.current_height + 1) with
  | (s1, some e) => (s1, some e)
  | (s1, none) => ({ s1 with current_height := s.current_height + 1 }, none)

/-- One iteration of the main loop of `BlockSynchronizer::run`
(`src/debshrew/src/synchronizer.rs:152`), from the poll to just before the
sleep: take the discrepancy branch when it applies and can advance;
otherwise compute `target = min(tip, actual_block_count)` and either advance
forward (when `target > current_height` or `current_height = 0`) or probe
for a reorg (when `current_height > 0`). -/
def run_step (env : Env) (s : SyncState) : SyncState × Option EngineError :=
  if env.metashrew_height > env.actual_block_count
      ∧ env.actual_block_count ≤ s.current_height
      ∧ s.current_height + 1 ≤ env.metashrew_height then
    discrepancy_step env s
  else
    if min env.metashrew_height env.actual_block_count > s.current_height
        ∨ s.current_height = 0 then
      advance_loop env s (List.range' (s.current_height + 1)
        (min env.metashrew_height env.actual_block_count - s.current_height))
    else if 0 < s.current_height then
      reorg_probe env s
    else (s, none)

end BlockSynchronizer

section ReorgClaims

open WasmRuntime BlockSynchronizer

/-- Builder for a concrete cache entry used in the reorg scenarios. -/
def mkEntry (h : Nat) (hx : String) (batch : List CdcMessage)
    (snap : TransformState) : BlockCache.CacheEntry :=
  { metadata := { height := h, hash := hx, timestamp := 0 }
    cdc_batch := batch
    state_snapshot := snap }

/-- Concrete `Create` message emitted at height 2 in the reorg scenario. -/
def msgB2 : CdcMessage :=
  { header :=
      { source := "block_transform"
        timestamp := 0
        block_height := 2
        block_hash := "03"
        transaction_id := none }
    payload :=
      { operation := .create
        table := "blocks"
        key := "2"
        before := none
        after := some (Json.num 2) } }

/-- Concrete `Create` message emitted at height 3 in the reorg scenario. -/
def msgB3 : CdcMessage :=
  { header :=
      { source := "block_transform"
        timestamp := 0
        block_height := 3
        block_hash := "04"
        transaction_id := none }
    payload :=
      { operation := .create
        table := "blocks"
        key := "3"
        before := none
        after := some (Json.num 3) } }

/-- Synchronizer state before the reorg scenario: heights 0..3 processed and
cached (window 6), the runtime holding the matching per-height batches, no
sends recorded yet, `current_height = 3`. -/
def s4 : SyncState :=
  { current_height := 3
    cache :=
      { entries :=
          [mkEntry 0 (hexEncode [1]) [] [([0], [0])],
           mkEntry 1 (hexEncode [2]) [] [([0], [1])],
           mkEntry 2 (hexEncode [3]) [msgB2] [([0], [2])],
           mkEntry 3 (hexEncode [4]) [msgB3] [([0], [3])]]
        capacity := 6 }
    runtime :=
      { current_height := 3
        current_hash := [4]
        state := [([0], [3])]
        cdc_cache := fun h =>
          if h = 2 then some [msgB2] else if h = 3 then some [msgB3] else none }
    sends := [] }

/-- Upstream for the reorg scenario: the new chain keeps heights 0 and 1 and
replaces height 2 (hash `0x13`); the sandbox succeeds everywhere. -/
def env4 : Env :=
  { metashrew_height := 3
    actual_block_count := 3
    block_hash := fun h =>
      if h = 0 then .ok [1]
      else if h = 1 then .ok [2]
      else if h = 2 then .ok [19]
      else .errNotFound
    wasm_process_ret := fun _ _ => 0
    wasm_serialized_batch := fun _ _ => []
    now_millis := 77
    now_secs := 7 }

/-- C4: evaluating `handle_reorg` on the concrete reorg (common ancestor 1,
`current_height` 3).  It succeeds, sends the two inverse batches (heights 3
then 2, each at target height one below) as one single combined send
followed by the replay batch, restores the runtime state from the ancestor
snapshot, rolls the cache back (entries 0, 1, then replayed 2) — but leaves
the synchronizer's `current_height` at 3 instead of setting it to the
ancestor 1, contradicting the claim (and the comment at
`src/debshrew/src/synchronizer.rs:231` that says `handle_reorg` updates it). -/
theorem handle_reorg_no_height_update :
    (handle_reorg env4 s4 2).2 = none
      ∧ (handle_reorg env4 s4 2).1.sends
          = [[invert_cdc_message [4] 77 msgB3 2, invert_cdc_message [4] 77 msgB2 1],
             [syntheticMessage env4 2 [19]]]
      ∧ (handle_reorg env4 s4 2).1.runtime.state = [([0], [1])]
      ∧ ((handle_reorg env4 s4 2).1.cache.entries.map (fun e => e.metadata.height))
          = [0, 1, 2]
      ∧ (handle_reorg env4 s4 2).1.current_height = 3
      ∧ (3 : Nat) ≠ 1 := by
  refine ⟨rfl, rfl, rfl, rfl, rfl, by decide⟩

/-- Synchronizer state for the no-ancestor scenario: only height 1 cached. -/
def s5 : SyncState :=
  { current_height := 1
    cache := { entries := [mkEntry 1 (hexEncode [2]) [msgB2] [([0], [1])]], capacity := 3 }
    runtime :=
      { current_height := 1
        current_hash := [2]
        state := [([0], [1])]
        cdc_cache := fun h => if h = 1 then some [msgB2] else none }
    sends := [] }

/-- Upstream for the no-ancestor scenario: every hash of the new chain
differs from everything cached. -/
def env5 : Env :=
  { metashrew_height := 1
    actual_block_count := 1
    block_hash := fun h => if h = 0 then .ok [9] else .ok [8]
    wasm_process_ret := fun _ _ => 0
    wasm_serialized_batch := fun _ _ => []
    now_millis := 0
    now_secs := 0 }

/-- C5 counterexample: on a reorg with no common ancestor in the window, the
engine surfaces `Error::ReorgHandling("No common ancestor found")` — not a
distinct `ReorgTooDeep` kind — though it does send nothing further. -/
theorem reorg_too_deep_cex :
    (handle_reorg env5 s5 1).2 = some (.reorgHandling "No common ancestor found")
      ∧ (handle_reorg env5 s5 1).2 ≠ some EngineError.reorgTooDeep
      ∧ (handle_reorg env5 s5 1).1.sends = s5.sends := by
  refine ⟨rfl, ?_, rfl⟩
  intro h
  rw [show (handle_reorg env5 s5 1).2
      = some (.reorgHandling "No common ancestor found") from rfl] at h
  exact EngineError.noConfusion (Option.some.inj h)

/-- C5 amended: whenever the candidate hashes are all available and the
cache has no common ancestor with them, `handle_reorg` surfaces the
reorg-handling error "No common ancestor found" (the `ReorgHandling`
variant, not a distinct `ReorgTooDeep` kind) and leaves the state — in
particular the sequence of sink sends — untouched. -/
theorem reorg_no_ancestor_error (env : Env) (s : SyncState) (new_height : Nat)
    (hs : List (Nat × String))
    (hcollect : collect_new_hashes env new_height = .ok hs)
    (hnone : BlockCache.find_common_ancestor s.cache hs = none) :
    handle_reorg env s new_height
      = (s, some (.reorgHandling "No common ancestor found")) := by
  simp [handle_reorg, hcollect, hnone]

/-- Witness for the amended C5 at the concrete no-ancestor scenario. -/
theorem reorg_no_ancestor_error_witness :
    handle_reorg env5 s5 1
      = (s5, some (.reorgHandling "No common ancestor found")) := by
  exact reorg_no_ancestor_error env5 s5 1
    [(0, hexEncode [9]), (1, hexEncode [8])] rfl rfl

end ReorgClaims

section PollingClaims

open WasmRuntime BlockSynchronizer

/-- State for the discrepancy scenario: height 5 processed and cached. -/
def s6 : SyncState :=
  { current_height := 5
    cache := { entries := [mkEntry 5 (hexEncode [5]) [] []], capacity := 6 }
    runtime :=
      { current_height := 5
        current_hash := [5]
        state := []
        cdc_cache := fun _ => none }
    sends := [] }

/-- Upstream for the discrepancy scenario: the reported tip (10) exceeds the
actual block count (3), which has not passed `current_height` (5). -/
def env6 : Env :=
  { metashrew_height := 10
    actual_block_count := 3
    block_hash := fun h => if h = 6 then .ok [6] else .errNotFound
    wasm_process_ret := fun _ _ => 0
    wasm_serialized_batch := fun _ _ => []
    now_millis := 1
    now_secs := 1 }

/-- C6 counterexample: with tip 10, actual block count 3 and
`current_height` 5 the advance target `min(10, 3) = 3` is not greater than
`current_height`, yet the iteration still processes a forward block — it
advances to height 6 and sends its batch (the discrepancy branch of `run`,
`src/debshrew/src/synchronizer.rs:165`). -/
theorem run_step_discrepancy_cex :
    min env6.metashrew_height env6.actual_block_count ≤ s6.current_height
      ∧ (run_step env6 s6).1.current_height = 6
      ∧ (run_step env6 s6).1.sends = [[syntheticMessage env6 6 [6]]] := by
  refine ⟨by decide, rfl, rfl⟩

/-- C6 amended: each iteration computes `target = min(tip, actual block
count)`; it probes for a reorg (performing no forward processing) when
`target ≤ current_height > 0` and the discrepancy case does not apply; in
the discrepancy case (`tip > actual_count`, `actual_count ≤ current_height`
and `current_height + 1 ≤ tip`) it processes the single next block even
though `target ≤ current_height`; and otherwise it advances forward exactly
over `current_height + 1 ..= target`. -/
theorem run_step_branching (env : Env) (s : SyncState) :
    (0 < s.current_height →
      min env.metashrew_height env.actual_block_count ≤ s.current_height →
      ¬(env.metashrew_height > env.actual_block_count
          ∧ env.actual_block_count ≤ s.current_height
          ∧ s.current_height + 1 ≤ env.metashrew_height) →
      run_step env s = reorg_probe env s)
    ∧ (env.metashrew_height > env.actual_block_count →
        env.actual_block_count ≤ s.current_height →
        s.current_height + 1 ≤ env.metashrew_height →
        run_step env s = discrepancy_step env s)
    ∧ ((min env.metashrew_height env.actual_block_count > s.current_height
          ∨ s.current_height = 0) →
        ¬(env.metashrew_height > env.actual_block_count
            ∧ env.actual_block_count ≤ s.current_height
            ∧ s.current_height + 1 ≤ env.metashrew_height) →
        run_step env s = advance_loop env s
          (List.range' (s.current_height + 1)
            (min env.metashrew_height env.actual_block_count - s.current_height))) := by
  refine ⟨?_, ?_, ?_⟩
  · intro hc hmin hnd
    unfold run_step
    rw [if_neg hnd, if_neg (by omega), if_pos hc]
  · intro h1 h2 h3
    unfold run_step
    rw [if_pos ⟨h1, h2, h3⟩]
  · intro hadv hnd
    unfold run_step
    rw [if_neg hnd, if_pos hadv]

/-- Witness for the amended C6: the concrete discrepancy scenario takes the
single-block discrepancy step. -/
theorem run_step_branching_witness :
    (env6.metashrew_height > env6.actual_block_count
        ∧ env6.actual_block_count ≤ s6.current_height
        ∧ s6.current_height + 1 ≤ env6.metashrew_height)
      ∧ run_step env6 s6 = discrepancy_step env6 s6 := by
  exact ⟨by decide,
    (run_step_branching env6 s6).2.1 (by decide) (by decide) (by decide)⟩

/-- State for the not-found scenario: starting fresh at height 5, nothing
cached yet. -/
def s7 : SyncState :=
  { current_height := 5
    cache := { entries := [], capacity := 6 }
    runtime :=
      { current_height := 5
        current_hash := [5]
        state := []
        cdc_cache := fun _ => none }
    sends := [] }

/-- Upstream for the not-found scenario: tip and block count are 7, but the
hash lookup at height 6 answers not-found while height 7 is available. -/
def env7 : Env :=
  { metashrew_height := 7
    actual_block_count := 7
    block_hash := fun h => if h = 7 then .ok [7] else .errNotFound
    wasm_process_ret := fun _ _ => 0
    wasm_serialized_batch := fun _ _ => []
    now_millis := 3
    now_secs := 3 }

/-- C7: evaluating one iteration with a not-found hash at height 6.  The
iteration indeed treats it as no error, creates no cache entry and sends no
batch for height 6 — but it does not stop advancing: it sets
`current_height` to 6 and then 7, processing and sending height 7, so the
unprocessed height 6 is skipped permanently instead of being retried at the
next poll as the claim (and the comment at
`src/debshrew/src/synchronizer.rs:294`, "will retry later") requires. -/
theorem notfound_skips_height :
    (run_step env7 s7).2 = none
      ∧ (run_step env7 s7).1.current_height = 7
      ∧ BlockCache.get_block_at_height (run_step env7 s7).1.cache 6 = none
      ∧ (run_step env7 s7).1.sends = [[syntheticMessage env7 7 [7]]] := by
  exact ⟨rfl, rfl, rfl, rfl⟩

end PollingClaims

section SandboxFaultClaims

open WasmRuntime BlockSynchronizer

/-- Unfolding of the advance loop on a non-empty height list. -/
theorem advance_loop_cons (env : Env) (s : SyncState) (h : Nat) (rest : List Nat) :
    advance_loop env s (h :: rest)
      = match sync_process_block env s h with
        | (s1, some e) => (s1, some e)
        | (s1, none) => advance_loop env { s1 with current_height := h } rest := rfl

/-- On a sandbox fault (negative entry-point return), the synchronizer's
`process_block` propagates the error after only the runtime's current
height/hash were set: cache and sends are untouched. -/
theorem sync_process_block_fault (env : Env) (s : SyncState) (h : Nat)
    (hash : List Nat) (hhash : env.block_hash h = .ok hash)
    (hfault : env.wasm_process_ret h hash < 0) :
    sync_process_block env s h
      = ({ s with runtime :=
            { s.runtime with current_height := h, current_hash := hash } },
         some (.anyhowMsg
           ("Process block failed with code " ++ toString (env.wasm_process_ret h hash)))) := by
  simp only [sync_process_block, hhash, process_block, if_pos hfault]

/-- C8: whenever the discrepancy branch does not apply, the advance target
exceeds `current_height`, the hash at the next height is available, and the
sandbox entry point returns a negative value there, the polling iteration
fails with an error while the cache gains no entry, the sink receives no
batch and `current_height` keeps its previous value. -/
theorem sandbox_fault_atomic (env : Env) (s : SyncState) (hash : List Nat)
    (hnd : ¬(env.metashrew_height > env.actual_block_count
        ∧ env.actual_block_count ≤ s.current_height
        ∧ s.current_height + 1 ≤ env.metashrew_height))
    (htgt : s.current_height < min env.metashrew_height env.actual_block_count)
    (hhash : env.block_hash (s.current_height + 1) = .ok hash)
    (hfault : env.wasm_process_ret (s.current_height + 1) hash < 0) :
    (run_step env s).2.isSome = true
      ∧ (run_step env s).1.current_height = s.current_height
      ∧ (run_step env s).1.cache = s.cache
      ∧ (run_step env s).1.sends = s.sends := by
  obtain ⟨k, hk⟩ : ∃ k,
      min env.metashrew_height env.actual_block_count - s.current_height = k + 1 :=
    ⟨min env.metashrew_height env.actual_block_count - s.current_height - 1, by omega⟩
  unfold run_step
  rw [if_neg hnd, if_pos (Or.inl htgt), hk, List.range'_succ,
    advance_loop_cons, sync_process_block_fault env s _ hash hhash hfault]
  exact ⟨rfl, rfl, rfl, rfl⟩

/-- State for the sandbox-fault scenario: height 3 processed and cached. -/
def s8 : SyncState :=
  { current_height := 3
    cache := { entries := [mkEntry 3 (hexEncode [3]) [] []], capacity := 6 }
    runtime :=
      { current_height := 3
        current_hash := [3]
        state := []
        cdc_cache := fun _ => none }
    sends := [] }

/-- Upstream for the sandbox-fault scenario: tip and block count are 5, the
hash at height 4 is available, and the transform returns −1 there. -/
def env8 : Env :=
  { metashrew_height := 5
    actual_block_count := 5
    block_hash := fun h => if h = 4 then .ok [7] else .errNotFound
    wasm_process_ret := fun h _ => if h = 4 then -1 else 0
    wasm_serialized_batch := fun _ _ => []
    now_millis := 2
    now_secs := 2 }

/-- Witness for C8 at the scenario-F instance: transform faults at height 4,
`current_height` stays 3, nothing cached or sent. -/
theorem sandbox_fault_atomic_witness :
    (run_step env8 s8).2.isSome = true
      ∧ (run_step env8 s8).1.current_height = 3
      ∧ (run_step env8 s8).1.sends = ([] : List (List CdcMessage)) := by
  have h := sandbox_fault_atomic env8 s8 [7] (by decide) (by decide) rfl (by decide)
  exact ⟨h.1, h.2.1, h.2.2.2⟩

end SandboxFaultClaims

section HostBatchClaims

open WasmRuntime

/-- Runtime state at startup for the batch-substitution scenario. -/
def rt9 : RuntimeState :=
  { current_height := 0
    current_hash := []
    state := []
    cdc_cache := fun _ => none }

/-- Environment for the batch-substitution scenario: the sandbox entry point
succeeds (pointer 0) and the serialised list behind the pointer is the empty
batch. -/
def env9 : Env :=
  { metashrew_height := 0
    actual_block_count := 1
    block_hash := fun _ => .ok [170]
    wasm_process_ret := fun _ _ => 0
    wasm_serialized_batch := fun _ _ => []
    now_millis := 4
    now_secs := 4 }

/-- C9: the sandbox returned (a pointer to) the serialised empty message
list, yet the host reports a one-message batch — the hard-coded
`block_transform` `Create` of `src/debshrew/src/runtime.rs:472` — instead of
the deserialisation of what the entry point handed back (the comment at
`src/debshrew/src/runtime.rs:469` concedes a real implementation would
deserialise from the returned pointer). -/
theorem host_substitutes_batch :
    env9.wasm_serialized_batch 0 [170] = []
      ∧ (process_block env9 rt9 0 [170]).2
          = .ok { cdc_messages := [syntheticMessage env9 0 [170]], state := [] }
      ∧ [syntheticMessage env9 0 [170]] ≠ ([] : List CdcMessage) := by
  refine ⟨rfl, rfl, by simp⟩

end HostBatchClaims

namespace WasmRuntime

/-- The `__get_state` host function registered by `WasmRuntime::process_block`
(`src/debshrew/src/runtime.rs:440`): a stub that returns 0 and never reads
the host's `TransformState`. -/
def host_get_state (_state : TransformState) (_key : List Nat) : Int := 0

/-- The `__set_state` host function (`src/debshrew/src/runtime.rs:444`): a
stub that returns 0 and leaves the host's `TransformState` unchanged. -/
def host_set_state (state : TransformState) (_key _value : List Nat) :
    TransformState × Int := (state, 0)

/-- The `__delete_state` host function (`src/debshrew/src/runtime.rs:448`): a
stub that returns 0 and leaves the host's `TransformState` unchanged. -/
def host_delete_state (state : TransformState) (_key : List Nat) :
    TransformState × Int := (state, 0)

end WasmRuntime

namespace Guest

/-- `debshrew_runtime::get_state` (`src/debshrew-runtime/src/lib.rs:59`), the
guest-side wrapper: ask `__get_state` for the value's length; a length of
zero or less is `None`, otherwise the bytes fetched through `__load`
(`loaded` stands for whatever `__load` would copy in). -/
def get_state (state : TransformState) (key : List Nat) (loaded : List Nat) :
    Option (List Nat) :=
  if WasmRuntime.host_get_state state key ≤ 0 then none else some loaded

/-- `debshrew_runtime::set_state` (`src/debshrew-runtime/src/lib.rs:72`): the
guest-side wrapper around `__set_state`; yields the host state afterwards. -/
def set_state (state : TransformState) (key value : List Nat) : TransformState :=
  (WasmRuntime.host_set_state state key value).1

/-- `debshrew_runtime::delete_state` (`src/debshrew-runtime/src/lib.rs:79`):
the guest-side wrapper around `__delete_state`; true when the host reports a
positive result. -/
def delete_state (state : TransformState) (key : List Nat) :
    TransformState × Bool :=
  ((WasmRuntime.host_delete_state state key).1,
   (WasmRuntime.host_delete_state state key).2 > 0)

end Guest

section StateCallClaims

/-- C10: with the host stubs of `src/debshrew/src/runtime.rs:440`,
`set_state([1], [2])` writes nothing and a subsequent `get_state([1])`
returns `none` rather than `some [2]` — the host-provided state calls never
read or write the transform's `TransformState` mapping (every `get_state`
answer is `none`, regardless of prior writes). -/
theorem state_calls_are_stubs :
    Guest.set_state [] [1] [2] = ([] : TransformState)
      ∧ Guest.get_state (Guest.set_state [] [1] [2]) [1] [2] = none
      ∧ (none : Option (List Nat)) ≠ some [2] := by
  refine ⟨rfl, rfl, by simp⟩

end StateCallClaims
